import Mathlib

set_option maxRecDepth 10000

/-!
Verification development for the stock-tracker decision engine.

Shallow embedding of the core pure logic of `src/lib/ai-decision.ts` and
`src/lib/technical-indicators.ts`:

* JavaScript numbers are modelled as exact rationals (`ℚ`); the two places
  where the source takes a square root (`stdDev`, feeding the Bollinger
  bands and the daily-return standard deviation) are modelled in `ℝ` via
  `Real.sqrt`.
* Database reads are modelled by passing the fetched rows as explicit list
  arguments; database writes are modelled by returning the updated row
  state.
* `new Date()` inside `analyzeSignals` is modelled by passing the current
  month (0-11, JavaScript convention) and day-of-month as arguments.
* Free-text fields (`reasoning`, `newsSummary`, `marketData`) carry no
  control-flow and are omitted from the embedded `Decision` record.
-/

/- ────────────────────────────────────────────────────────────────────
   Numeric helpers
   ──────────────────────────────────────────────────────────────────── -/

/-- Model of JavaScript `Math.max` on two (non-NaN) numbers.  It takes the
decidability instance explicitly so that concrete instances evaluate inside
the kernel. -/
def jsMax {α : Type} [LE α] [i : ∀ x y : α, Decidable (x ≤ y)] (a b : α) : α :=
  if a ≤ b then b else a

/-- Model of JavaScript `Math.min` on two (non-NaN) numbers. -/
def jsMin {α : Type} [LE α] [i : ∀ x y : α, Decidable (x ≤ y)] (a b : α) : α :=
  if a ≤ b then a else b

theorem jsMax_eq_max {α : Type} [LinearOrder α] [i : ∀ x y : α, Decidable (x ≤ y)] (a b : α) :
    jsMax a b = max a b := by
  unfold jsMax; split
  · exact (max_eq_right (by assumption)).symm
  · exact (max_eq_left (le_of_not_le (by assumption))).symm

theorem jsMin_eq_min {α : Type} [LinearOrder α] [i : ∀ x y : α, Decidable (x ≤ y)] (a b : α) :
    jsMin a b = min a b := by
  unfold jsMin; split
  · exact (min_eq_left (by assumption)).symm
  · exact (min_eq_right (le_of_not_le (by assumption))).symm

/- ────────────────────────────────────────────────────────────────────
   Sentiment scorer (src/lib/ai-decision.ts, computeSentimentScore)
   ──────────────────────────────────────────────────────────────────── -/

/-- Whitespace characters as matched by the JavaScript regex class `\s`
(ASCII part plus NBSP; exotic Unicode space code points are not produced
by any input considered here). -/
def isWsChar (c : Char) : Bool :=
  c = ' ' || c = '\t' || c = '\n' || c = '\r' ||
  c = (Char.ofNat 11) || c = (Char.ofNat 12) || c = (Char.ofNat 160)

/-- Consume every leading whitespace character. -/
def skipWsAll : List Char → List Char
  | [] => []
  | c :: r => if isWsChar c then skipWsAll r else c :: r

/-- Model of the regex fragment `\s+` by maximal munch: require at least one
whitespace character and consume the whole run.  In every negation pattern
of the source, `\s+` is followed by a literal whose first character is not
whitespace, so maximal munch is equivalent to backtracking. -/
def skipWs1 : List Char → Option (List Char)
  | [] => none
  | c :: r => if isWsChar c then some (skipWsAll r) else none

/-- Continuation-passing literal matcher: the pattern word must be a prefix
of the input, then the continuation runs on the rest. -/
def litP (w : String) (k : List Char → Bool) (s : List Char) : Bool :=
  w.toList.isPrefixOf s && k (s.drop w.toList.length)

/-- Continuation-passing matcher for `\s+`. -/
def wsP (k : List Char → Bool) (s : List Char) : Bool :=
  match skipWs1 s with
  | some r => k r
  | none => false

/-- Continuation-passing matcher for an optional group `(?:p)?`. -/
def optP (p : (List Char → Bool) → List Char → Bool)
    (k : List Char → Bool) (s : List Char) : Bool :=
  p k s || k s

/-- Trailing continuation: the regexes are unanchored at the end. -/
def endP (_ : List Char) : Bool := true

/-- Regex `not\s+(?:a\s+)?declin` (case already folded). -/
def negPat1 : List Char → Bool :=
  litP ("not") (wsP (optP (fun k => litP ("a") (wsP k)) (litP ("declin") endP)))

/-- Regex `no\s+(?:significant\s+)?loss`. -/
def negPat2 : List Char → Bool :=
  litP ("no") (wsP (optP (fun k => litP ("significant") (wsP k)) (litP ("loss") endP)))

/-- Regex `not\s+weak`. -/
def negPat3 : List Char → Bool :=
  litP ("not") (wsP (litP ("weak") endP))

/-- Regex `avoid(?:ed|ing)?\s+loss`. -/
def negPat4 : List Char → Bool :=
  litP ("avoid")
    (optP (fun k s => litP ("ed") k s || litP ("ing") k s)
      (wsP (litP ("loss") endP)))

/-- Regex `despite\s+(?:the\s+)?(?:concern|drop|decline)`. -/
def negPat5 : List Char → Bool :=
  litP ("despite")
    (wsP (optP (fun k => litP ("the") (wsP k))
      (fun s => litP ("concern") endP s || litP ("drop") endP s ||
                litP ("decline") endP s)))

/-- Regex `not\s+(?:a\s+)?concern`. -/
def negPat6 : List Char → Bool :=
  litP ("not") (wsP (optP (fun k => litP ("a") (wsP k)) (litP ("concern") endP)))

/-- Regex `no\s+downgrade`. -/
def negPat7 : List Char → Bool :=
  litP ("no") (wsP (litP ("downgrade") endP))

/-- The NEGATION_PATTERNS table of the source, in order. -/
def NEGATION_PATTERNS : List (List Char → Bool) :=
  [negPat1, negPat2, negPat3, negPat4, negPat5, negPat6, negPat7]

/-- An unanchored regex test: does the prefix matcher fire at some suffix? -/
def existsSuffixMatch (p : List Char → Bool) : List Char → Bool
  | [] => p []
  | c :: r => p (c :: r) || existsSuffixMatch p r

/-- Worker for `countOccur`: while the skip counter is positive the scanner
is still inside the previous match and only advances. -/
def countOccurAux (pat : List Char) : List Char → ℕ → ℕ
  | [], _ => 0
  | c :: rest, 0 =>
      if pat.isPrefixOf (c :: rest) then
        1 + countOccurAux pat rest (pat.length - 1)
      else
        countOccurAux pat rest 0
  | _ :: rest, Nat.succ k => countOccurAux pat rest k

/-- Count non-overlapping, leftmost occurrences of a pattern, exactly as
`lower.match(new RegExp(word, "gi")).length` counts them for a literal
pattern word. -/
def countOccur (pat s : List Char) : ℕ :=
  countOccurAux pat s 0

/-- POSITIVE_KEYWORDS of the source: weighted phrases. -/
def POSITIVE_KEYWORDS : List (String × ℚ) :=
  [("beat expectations", 3), ("record revenue", 3),
   ("record profit", 3), ("upgrade", 3),
   ("buy rating", 3), ("outperform", 3),
   ("breakthrough", 3), ("strong buy", 3),
   ("revenue growth", 2), ("beat", 2),
   ("surge", 2), ("rally", 2),
   ("bullish", 2), ("expansion", 2),
   ("partnership", 2), ("innovation", 2),
   ("exceed", 2), ("market share gain", 2),
   ("buyback", 2), ("repurchas", 2),
   ("growth", 1), ("strong", 1),
   ("profit", 1), ("dividend", 1),
   ("momentum", 1), ("cloud", 1),
   ("ai", 1/2)]

/-- NEGATIVE_KEYWORDS of the source: weighted phrases. -/
def NEGATIVE_KEYWORDS : List (String × ℚ) :=
  [("downgrade", 3), ("sell rating", 3),
   ("bankruptcy", 3), ("fraud", 3),
   ("investigation", 3), ("default", 3),
   ("profit warning", 3), ("guidance cut", 3),
   ("miss", 2), ("decline", 2),
   ("bearish", 2), ("underperform", 2),
   ("layoff", 2), ("lawsuit", 2),
   ("tariff", 2), ("sanction", 2),
   ("recession", 2), ("ban", 2),
   ("drop", 1), ("weak", 1),
   ("loss", 1), ("warning", 1),
   ("cut", 1), ("concern", 1),
   ("debt", 1), ("pressure", 1)]

/-- `news.toLowerCase()` as a character list. -/
def lowerOf (news : String) : List Char :=
  news.toList.map Char.toLower

/-- One iteration of the keyword loop: accumulate `weight * min(count, 3)`
and record the phrase when it occurred at least once. -/
def keywordStep (lower : List Char) (acc : ℚ × List String) (kw : String × ℚ) :
    ℚ × List String :=
  let count := countOccur kw.1.toList lower
  if 0 < count then (acc.1 + kw.2 * (jsMin count 3 : ℕ), acc.2 ++ [kw.1])
  else acc

/-- The keyword loop over one table, in table order. -/
def keywordScan (table : List (String × ℚ)) (lower : List Char) : ℚ × List String :=
  table.foldl (keywordStep lower) (0, [])

/-- Negation detection: `0.5` bonus per matching pattern.  The source tests
the patterns case-insensitively against the raw text, which is equivalent
to testing them against the lowercased text. -/
def negStep (lower : List Char) (acc : ℚ) (p : List Char → Bool) : ℚ :=
  if existsSuffixMatch p lower then acc + 1/2 else acc

def negationBonus (lower : List Char) : ℚ :=
  NEGATION_PATTERNS.foldl (negStep lower) 0

structure SentimentResult where
  score : ℚ
  positiveHits : List String
  negativeHits : List String
deriving DecidableEq, Repr

/-- Embedding of `computeSentimentScore`. -/
def computeSentimentScore (news : String) : SentimentResult :=
  let lower := lowerOf news
  let pos := keywordScan POSITIVE_KEYWORDS lower
  let neg := keywordScan NEGATIVE_KEYWORDS lower
  let positiveScore := pos.1 + negationBonus lower
  let negativeScore := neg.1
  let total := positiveScore + negativeScore
  let score := if 0 < total then (positiveScore - negativeScore) / total else 0
  { score := jsMax (-1) (jsMin 1 score)
    positiveHits := pos.2
    negativeHits := neg.2 }

/- ────────────────────────────────────────────────────────────────────
   Technical indicators (src/lib/technical-indicators.ts)
   ──────────────────────────────────────────────────────────────────── -/

inductive RsiSignal
  | oversold
  | overbought
  | neutral
deriving DecidableEq, Repr

inductive VolumeTrend
  | increasing
  | decreasing
  | stable
deriving DecidableEq, Repr

inductive TechnicalSignal
  | strong_buy
  | buy
  | neutral
  | sell
  | strong_sell
deriving DecidableEq, Repr

/-- One row of the `st-price-history` query, after the source's `toNum`
coercion (strings parsed, `null` mapped to `0`); the `change_percent` and
`created_at` columns are fetched but unused by the computation, row order
models the `ORDER BY created_at DESC` clause. -/
structure PriceRow where
  price : ℚ
  averageVolume : ℚ
deriving DecidableEq, Repr

/-- The computed indicator vector.  Numeric fields are rationals except the
four fields whose source computation involves a square root, which live in
`ℝ`.  The source object returned by `computeTechnicalIndicators` carries no
`suddenVolumeSpike` property even though downstream interfaces declare one;
reading it yields `undefined`, modelled as a `none` field here. -/
structure TechnicalIndicators where
  sma5 : Option ℚ
  sma20 : Option ℚ
  sma60 : Option ℚ
  ema12 : Option ℚ
  ema26 : Option ℚ
  maShortAboveLong : Option Bool
  maGoldenCross : Option Bool
  priceAboveSma20 : Option Bool
  priceAboveSma60 : Option Bool
  rsi14 : Option ℚ
  rsiSignal : Option RsiSignal
  macdLine : Option ℚ
  macdSignal : Option ℚ
  macdHistogram : Option ℚ
  macdBullish : Option Bool
  bollingerUpper : Option ℝ
  bollingerMiddle : Option ℚ
  bollingerLower : Option ℝ
  bollingerPosition : Option ℝ
  atr14 : Option ℚ
  volatilityPct : Option ℚ
  dailyReturnStdDev : Option ℝ
  volumeQuot : Option ℚ
  volumeTrend : Option VolumeTrend
  roc5 : Option ℚ
  roc20 : Option ℚ
  consecutiveUp : ℕ
  consecutiveDown : ℕ
  distanceFrom52wHigh : Option ℚ
  distanceFrom52wLow : Option ℚ
  technicalScore : ℚ
  technicalSignal : TechnicalSignal
  dataPoints : ℕ
  suddenVolumeSpike : Option Bool

/-- Sum of a list of rationals, as the source's `reduce((s, p) => s + p, 0)`. -/
def listSum (l : List ℚ) : ℚ := l.foldl (fun s p => s + p) 0

/-- The `prices` array of the main computation: parsed prices, zero and
negative entries dropped. -/
def usablePrices (rows : List PriceRow) : List ℚ :=
  (rows.map PriceRow.price).filter (fun p => 0 < p)

/-- The `volumes` array: parsed average volumes, nonpositive entries dropped. -/
def usableVolumes (rows : List PriceRow) : List ℚ :=
  (rows.map PriceRow.averageVolume).filter (fun v => 0 < v)

/-- Simple moving average over the `period` most recent points. -/
def sma (prices : List ℚ) (period : ℕ) : Option ℚ :=
  if prices.length < period then none
  else some (listSum (prices.take period) / period)

/-- Exponential moving average: seed with the SMA of the oldest `period`
values of the (truncated, oldest-first) series, then apply the recurrence
`value = p * k + value * (1 - k)` toward the newest point. -/
def ema (prices : List ℚ) (period : ℕ) : Option ℚ :=
  if prices.length < period then none
  else
    let k : ℚ := 2 / (period + 1)
    let reversed := (prices.take (jsMin prices.length (period * 3))).reverse
    let seed := listSum (reversed.take period) / period
    some ((reversed.drop period).foldl (fun value p => p * k + value * (1 - k)) seed)

/-- One change of the initial-average loop of `computeRSI`: gains into the
first component, absolute losses into the second. -/
def rsiInitStep (gl : ℚ × ℚ) (c : ℚ) : ℚ × ℚ :=
  if 0 < c then (gl.1 + c, gl.2) else (gl.1, gl.2 + |c|)

/-- One change of the Wilder smoothing loop of `computeRSI`. -/
def rsiSmoothStep (period : ℕ) (gl : ℚ × ℚ) (c : ℚ) : ℚ × ℚ :=
  ((gl.1 * ((period : ℚ) - 1) + (if 0 < c then c else 0)) / period,
   (gl.2 * ((period : ℚ) - 1) + (if c < 0 then |c| else 0)) / period)

/-- The smoothed Wilder averages `(avgGain, avgLoss)` of `computeRSI`, or
`none` when the series is too short. -/
def rsiAverages (prices : List ℚ) (period : ℕ) : Option (ℚ × ℚ) :=
  if prices.length < period + 1 then none
  else
    let changes := (List.zipWith (fun a b => a - b) prices prices.tail).take (period * 3)
    if changes.length < period then none
    else
      let startSlice := changes.drop (changes.length - period)
      let ini := startSlice.foldl rsiInitStep ((0 : ℚ), (0 : ℚ))
      let seed := (ini.1 / period, ini.2 / period)
      some (((changes.take (changes.length - period)).reverse).foldl
        (rsiSmoothStep period) seed)

/-- Embedding of `computeRSI`. -/
def computeRSI (prices : List ℚ) (period : ℕ) : Option ℚ :=
  match rsiAverages prices period with
  | none => none
  | some gl =>
      if gl.2 = 0 then some 100
      else some (100 - 100 / (1 + gl.1 / gl.2))

/-- Sample standard deviation (the lone `ℝ`-valued helper). -/
noncomputable def stdDev (values : List ℚ) : ℝ :=
  if values.length < 2 then 0
  else
    let mean := listSum values / values.length
    let variance := listSum (values.map (fun v => (v - mean) ^ 2)) / (values.length - 1)
    Real.sqrt (variance : ℝ)

/-- Embedding of `computeATR`: true range approximated by close-to-close
distance, seeded with an SMA and Wilder-smoothed. -/
def computeATR (prices : List ℚ) (period : ℕ) : Option ℚ :=
  if prices.length < period + 1 then none
  else
    let trs := (List.zipWith (fun a b => |a - b|) prices prices.tail).take (period * 2)
    if trs.length < period then none
    else
      let seed := listSum (trs.take period) / period
      some ((trs.drop period).foldl
        (fun atr tr => (atr * ((period : ℚ) - 1) + tr) / period) seed)

/-- The consecutive up/down loop of the source, over adjacent pairs from the
most recent point backward; `break` is modelled by returning the counters. -/
def consecLoop : ℚ → List ℚ → ℕ → ℕ → ℕ × ℕ
  | _, [], up, down => (up, down)
  | p, q :: rest, up, down =>
      if q < p then
        (if down = 0 then consecLoop q rest (up + 1) down else (up, down))
      else if p < q then
        (if up = 0 then consecLoop q rest up (down + 1) else (up, down))
      else (up, down)

/-- Consecutive up/down run counts of a most-recent-first price series. -/
def consecutiveRuns (prices : List ℚ) : ℕ × ℕ :=
  match prices with
  | [] => (0, 0)
  | p :: rest => consecLoop p rest 0 0

/-- Distance (in percent) of the current price from a 52-week bound; the
source guard `bound && bound > 0` reduces to positivity. -/
def dist52 (price : ℚ) (bound : Option ℚ) : Option ℚ :=
  match bound with
  | some b => if 0 < b then some ((price - b) / b * 100) else none
  | none => none

/-- Embedding of `emptyIndicators`: the vector returned when fewer than five
usable price points exist. -/
def emptyIndicators (price : ℚ) (dataPoints : ℕ)
    (high52 low52 : Option ℚ) : TechnicalIndicators :=
  { sma5 := none, sma20 := none, sma60 := none, ema12 := none, ema26 := none
    maShortAboveLong := none, maGoldenCross := none
    priceAboveSma20 := none, priceAboveSma60 := none
    rsi14 := none, rsiSignal := none
    macdLine := none, macdSignal := none, macdHistogram := none, macdBullish := none
    bollingerUpper := none, bollingerMiddle := none
    bollingerLower := none, bollingerPosition := none
    atr14 := none, volatilityPct := none, dailyReturnStdDev := none
    volumeQuot := none, volumeTrend := none
    roc5 := none, roc20 := none
    consecutiveUp := 0, consecutiveDown := 0
    distanceFrom52wHigh := dist52 price high52
    distanceFrom52wLow := dist52 price low52
    technicalScore := 0
    technicalSignal := TechnicalSignal.neutral
    dataPoints := dataPoints
    suddenVolumeSpike := none }

/-- Embedding of the main body of `computeTechnicalIndicators`.  The
database fetch is modelled by the `rows` argument (most recent first, up to
the source's `LIMIT 200`); the `symbol` parameter only selects the rows and
is dropped. -/
noncomputable def computeTechnicalIndicators (rows : List PriceRow) (currentPrice : ℚ)
    (fiftyTwoWeekHigh fiftyTwoWeekLow : Option ℚ) : TechnicalIndicators :=
  let prices0 := usablePrices rows
  let volumes := usableVolumes rows
  let dataPoints := prices0.length
  if dataPoints < 5 then
    emptyIndicators currentPrice dataPoints fiftyTwoWeekHigh fiftyTwoWeekLow
  else
    let prices :=
      match prices0 with
      | [] => prices0
      | p0 :: _ =>
          if 0 < currentPrice ∧ (1/1000 : ℚ) < |currentPrice - p0| / p0 then
            currentPrice :: prices0
          else prices0
    let sma5 := sma prices 5
    let sma20 := sma prices 20
    let sma60 := sma prices 60
    let ema12 := ema prices 12
    let ema26 := ema prices 26
    let maShortAboveLong : Option Bool :=
      match sma5, sma20 with
      | some a, some b => some (decide (b < a))
      | _, _ => none
    let maGoldenCross : Option Bool :=
      match sma20, sma60 with
      | some a, some b => some (decide (b < a))
      | _, _ => none
    let priceAboveSma20 : Option Bool :=
      match sma20 with
      | some b => some (decide (b < currentPrice))
      | none => none
    let priceAboveSma60 : Option Bool :=
      match sma60 with
      | some b => some (decide (b < currentPrice))
      | none => none
    let rsi14 := computeRSI prices 14
    let rsiSignal : Option RsiSignal :=
      match rsi14 with
      | some r =>
          some (if r < 30 then RsiSignal.oversold
                else if 70 < r then RsiSignal.overbought
                else RsiSignal.neutral)
      | none => none
    let macdLine : Option ℚ :=
      match ema12, ema26 with
      | some a, some b => some (a - b)
      | _, _ => none
    let macdValues : List ℚ :=
      match ema12, ema26 with
      | some _, some _ =>
          (List.range (jsMin (prices.length - 26) 30)).filterMap
            (fun i =>
              match ema (prices.drop i) 12, ema (prices.drop i) 26 with
              | some a, some b => some (a - b)
              | _, _ => none)
      | _, _ => []
    let macdSignalLine : Option ℚ :=
      match macdLine with
      | none => none
      | some _ =>
          if 9 ≤ macdValues.length then
            let k : ℚ := 2 / 10
            let seed := listSum (macdValues.drop (macdValues.length - 9)) / 9
            some (((macdValues.take (macdValues.length - 9)).reverse).foldl
              (fun sig v => v * k + sig * (1 - k)) seed)
          else none
    let macdHistogram : Option ℚ :=
      match macdLine, macdSignalLine with
      | some l, some s => some (l - s)
      | _, _ => none
    let macdBullish : Option Bool :=
      match macdHistogram with
      | some h => some (decide (0 < h))
      | none => none
    let bb : Option (ℝ × ℚ × ℝ) :=
      match sma20 with
      | some m =>
          if 20 ≤ prices.length then
            let std := stdDev (prices.take 20)
            some ((m : ℝ) + 2 * std, m, (m : ℝ) - 2 * std)
          else none
      | none => none
    let bollingerUpper : Option ℝ := bb.map (fun x => x.1)
    let bollingerMiddle : Option ℚ := bb.map (fun x => x.2.1)
    let bollingerLower : Option ℝ := bb.map (fun x => x.2.2)
    let bollingerPosition : Option ℝ :=
      match bb with
      | some x =>
          if x.1 ≠ x.2.2 then some (((currentPrice : ℝ) - x.2.2) / (x.1 - x.2.2))
          else none
      | none => none
    let atr14 := computeATR prices 14
    let volatilityPct : Option ℚ :=
      match atr14 with
      | some a => if 0 < currentPrice then some (a / currentPrice * 100) else none
      | none => none
    let returns : List ℚ :=
      ((List.zipWith (fun a b => (a, b)) prices prices.tail).take 20).filterMap
        (fun ab => if 0 < ab.2 then some ((ab.1 - ab.2) / ab.2) else none)
    let dailyReturnStdDev : Option ℝ :=
      if 5 ≤ returns.length then some (stdDev returns * 100) else none
    let volumePair : Option (ℚ × VolumeTrend) :=
      if 5 ≤ volumes.length then
        let recentVol := listSum (volumes.take 5) / 5
        let avgVol := listSum volumes / volumes.length
        if 0 < avgVol then
          let r := recentVol / avgVol
          some (r,
            if (13/10 : ℚ) < r then VolumeTrend.increasing
            else if r < (7/10 : ℚ) then VolumeTrend.decreasing
            else VolumeTrend.stable)
        else none
      else none
    let volumeQuot : Option ℚ := volumePair.map (fun x => x.1)
    let volumeTrend : Option VolumeTrend := volumePair.map (fun x => x.2)
    let roc5 : Option ℚ :=
      if 5 < prices.length ∧ 0 < prices.getD 5 0 then
        some ((currentPrice - prices.getD 5 0) / prices.getD 5 0 * 100)
      else none
    let roc20 : Option ℚ :=
      if 20 < prices.length ∧ 0 < prices.getD 20 0 then
        some ((currentPrice - prices.getD 20 0) / prices.getD 20 0 * 100)
      else none
    let runs := consecutiveRuns prices
    let consecutiveUp := runs.1
    let consecutiveDown := runs.2
    let sc1 : ℤ × ℕ :=
      match rsi14 with
      | some r =>
          ((if r < 30 then 20 else if r < 40 then 10
            else if 70 < r then -20 else if 60 < r then -5 else 0), 1)
      | none => (0, 0)
    let sc2 : ℤ × ℕ :=
      match maShortAboveLong with
      | some b => (sc1.1 + (if b then 15 else -15), sc1.2 + 1)
      | none => sc1
    let sc3 : ℤ × ℕ :=
      match maGoldenCross with
      | some b => (sc2.1 + (if b then 10 else -10), sc2.2 + 1)
      | none => sc2
    let sc4 : ℤ × ℕ :=
      match priceAboveSma20 with
      | some b => (sc3.1 + (if b then 8 else -8), sc3.2 + 1)
      | none => sc3
    let sc5 : ℤ × ℕ :=
      match macdBullish with
      | some b => (sc4.1 + (if b then 12 else -12), sc4.2 + 1)
      | none => sc4
    let sc6 : ℤ × ℕ :=
      match bollingerPosition with
      | some bp =>
          (sc5.1 + (if bp < (1/10 : ℝ) then 15 else if bp < (3/10 : ℝ) then 8
                    else if (9/10 : ℝ) < bp then -15 else if (7/10 : ℝ) < bp then -8
                    else 0), sc5.2 + 1)
      | none => sc5
    let sc7 : ℤ × ℕ :=
      match roc5 with
      | some r =>
          (sc6.1 + (if 5 < r then 8 else if 2 < r then 4
                    else if r < -5 then -8 else if r < -2 then -4 else 0), sc6.2 + 1)
      | none => sc6
    let sc8 : ℤ × ℕ :=
      match volumeQuot, roc5 with
      | some vq, some r =>
          (sc7.1 + (if 0 < r ∧ (13/10 : ℚ) < vq then 8
                    else if r < 0 ∧ (13/10 : ℚ) < vq then -8 else 0), sc7.2 + 1)
      | _, _ => sc7
    let score : ℤ :=
      sc8.1 + (if 4 ≤ consecutiveUp then -5 else 0) + (if 4 ≤ consecutiveDown then 5 else 0)
    let factors := sc8.2
    let maxPossible : ℤ := if 0 < factors then (factors : ℤ) * 20 else 1
    let normalizedScore : ℤ :=
      jsMax (-100) (jsMin 100 (round ((score : ℚ) / (maxPossible : ℚ) * 100)))
    let technicalSignal : TechnicalSignal :=
      if 40 < normalizedScore then TechnicalSignal.strong_buy
      else if 15 < normalizedScore then TechnicalSignal.buy
      else if normalizedScore < -40 then TechnicalSignal.strong_sell
      else if normalizedScore < -15 then TechnicalSignal.sell
      else TechnicalSignal.neutral
    { sma5 := sma5, sma20 := sma20, sma60 := sma60, ema12 := ema12, ema26 := ema26
      maShortAboveLong := maShortAboveLong, maGoldenCross := maGoldenCross
      priceAboveSma20 := priceAboveSma20, priceAboveSma60 := priceAboveSma60
      rsi14 := rsi14, rsiSignal := rsiSignal
      macdLine := macdLine, macdSignal := macdSignalLine
      macdHistogram := macdHistogram, macdBullish := macdBullish
      bollingerUpper := bollingerUpper, bollingerMiddle := bollingerMiddle
      bollingerLower := bollingerLower, bollingerPosition := bollingerPosition
      atr14 := atr14, volatilityPct := volatilityPct
      dailyReturnStdDev := dailyReturnStdDev
      volumeQuot := volumeQuot, volumeTrend := volumeTrend
      roc5 := roc5, roc20 := roc20
      consecutiveUp := consecutiveUp, consecutiveDown := consecutiveDown
      distanceFrom52wHigh := dist52 currentPrice fiftyTwoWeekHigh
      distanceFrom52wLow := dist52 currentPrice fiftyTwoWeekLow
      technicalScore := (normalizedScore : ℚ)
      technicalSignal := technicalSignal
      dataPoints := dataPoints
      suddenVolumeSpike := none }

/- ────────────────────────────────────────────────────────────────────
   Decision engine (src/lib/ai-decision.ts, analyzeSignals)
   ──────────────────────────────────────────────────────────────────── -/

inductive TradeAction
  | BUY
  | SELL
  | HOLD
deriving DecidableEq, Repr

/-- The decision record; the free-text `reasoning`, `newsSummary` and
`marketData` fields are dropped (they never influence control flow). -/
structure Decision where
  symbol : String
  action : TradeAction
  confidence : ℤ
deriving DecidableEq, Repr

/-- The quote fields read by `analyzeSignals`; optional source fields are
`Option` (absent/`undefined` is `none`, and zero values count as falsy in
the source's truthiness guards). -/
structure Quote where
  price : ℚ
  currency : String
  changePercent : Option ℚ
  pe : Option ℚ
  marketCap : Option ℚ
  dividendYield : Option ℚ
  fiftyTwoWeekHigh : Option ℚ
  fiftyTwoWeekLow : Option ℚ
deriving DecidableEq, Repr

/-- Risk flags consumed by `analyzeSignals`; `lastDecisionAction` and
`lastDecisionTime` are carried by the source record but never read by it. -/
structure RiskCheckResult where
  stopLossTriggered : Bool
  maxPositionReached : Bool
  cooldownActive : Bool
  dailyTradeCount : ℕ
deriving DecidableEq, Repr

/-- One entry of `recentPriceHistory` (the `timestamp` string is unused). -/
structure PricePoint where
  price : ℚ
  changePercent : ℚ
deriving DecidableEq, Repr

/-- Optional-chaining read `riskCheck?.stopLossTriggered`. -/
def stopLossOf : Option RiskCheckResult → Bool
  | some r => r.stopLossTriggered
  | none => false

/-- Optional-chaining read `riskCheck?.maxPositionReached`. -/
def maxPosOf : Option RiskCheckResult → Bool
  | some r => r.maxPositionReached
  | none => false

def XIAOMI_SYMBOL : String := "01810.HK"

/-- Embedding of `checkIntradaySwingSignal` (the T-Buy trigger). -/
noncomputable def checkIntradaySwingSignal
    (bollingerPosition : Option ℝ) (rsi14 : Option ℚ) : Bool :=
  match bollingerPosition, rsi14 with
  | some b, some r => decide (b < (1/10 : ℝ)) && decide (r < 30)
  | _, _ => false

structure ProfitTakingResult where
  triggered : Bool
  intradayGainPct : ℚ
deriving DecidableEq, Repr

/-- Embedding of `checkProfitTaking`: trigger a sell hint when the price sits
more than 3% above the low of the six most recent history points. -/
def checkProfitTaking (currentPrice : ℚ)
    (recentPriceHistory : List PricePoint) (shares : ℚ) : ProfitTakingResult :=
  if shares ≤ 0 ∨ recentPriceHistory = [] then { triggered := false, intradayGainPct := 0 }
  else
    let todayPrices := ((recentPriceHistory.take 6).map PricePoint.price).filter (fun p => 0 < p)
    match todayPrices with
    | [] => { triggered := false, intradayGainPct := 0 }
    | p :: ps =>
        let dailyLow := ps.foldl jsMin p
        let gain := if 0 < dailyLow then (currentPrice - dailyLow) / dailyLow * 100 else 0
        if 3 < gain then { triggered := true, intradayGainPct := gain }
        else { triggered := false, intradayGainPct := gain }

/-- Embedding of `applyCostBasisProtection`, returning the `signalDelta`
(the accompanying reason string is dropped). -/
noncomputable def applyCostBasisProtection (currentPrice : ℚ) (costPrice : Option ℚ)
    (shares : ℚ) (bollingerPosition : Option ℝ) (rsi14 : Option ℚ) : ℚ :=
  match costPrice with
  | none => 0
  | some c =>
      if c ≤ 0 ∨ shares ≤ 0 then 0
      else
        let priceToCost := currentPrice / c
        if priceToCost < (19/20 : ℚ) then
          (if (match bollingerPosition with
               | some b => decide (b < (3/10 : ℝ))
               | none => false) ||
              (match rsi14 with
               | some r => decide (r < 40)
               | none => false) then 15 else 0)
        else if (103/100 : ℚ) < priceToCost then -10
        else 0

/-- The multi-factor accumulation of `analyzeSignals`, before the
max-position clamp: sentiment seed, technical block, T-Buy bonus,
profit-taking penalty, cost-basis protection, PnL bands, valuation
bonuses, symbol bias and news-volume amplification, in source order. -/
noncomputable def signalStrengthRaw (symbol : String) (currentPrice : ℚ)
    (costPrice : Option ℚ) (shares : ℚ) (news : String) (quote : Option Quote)
    (ti : Option TechnicalIndicators)
    (recentPriceHistory : List PricePoint) : ℚ :=
  let sentiment := computeSentimentScore news
  let sentimentScore := sentiment.score
  let pnlPct : ℚ :=
    match costPrice with
    | some c => if 0 < c ∧ 0 < currentPrice then (currentPrice - c) / c * 100 else 0
    | none => 0
  let s1 : ℚ := sentimentScore * 30
  let s2 : ℚ := s1 +
    (match ti with
     | some t =>
         if 10 ≤ t.dataPoints then
           t.technicalScore * (2/5)
           + (match t.rsi14 with
              | some r => if r < 30 then 12 else if 70 < r then -12 else 0
              | none => 0)
           + (match t.macdBullish with
              | some b =>
                  if b ∧ 0 < sentimentScore then 8
                  else if b = false ∧ sentimentScore < 0 then -8
                  else 0
              | none => 0)
           + (match t.bollingerPosition with
              | some b =>
                  if b < (3/20 : ℝ) then 10
                  else if (17/20 : ℝ) < b then -10
                  else 0
              | none => 0)
           + (match t.volumeQuot, t.roc5 with
              | some vq, some r =>
                  if 0 < r ∧ (13/10 : ℚ) < vq then 6
                  else if r < 0 ∧ (13/10 : ℚ) < vq then -6
                  else 0
              | _, _ => 0)
           + (match t.suddenVolumeSpike with
              | some true =>
                  (match t.roc5 with
                   | some r => if 0 < r then 10 else if r < 0 then -10 else 0
                   | none => 0)
              | _ => 0)
         else 0
     | none => 0)
  let tBuy := checkIntradaySwingSignal
    (match ti with | some t => t.bollingerPosition | none => none)
    (match ti with | some t => t.rsi14 | none => none)
  let s3 : ℚ := if tBuy then s2 + 20 else s2
  let profitTake := checkProfitTaking currentPrice recentPriceHistory shares
  let s4 : ℚ := if profitTake.triggered then s3 - 18 else s3
  let costBasisDelta := applyCostBasisProtection currentPrice costPrice shares
    (match ti with | some t => t.bollingerPosition | none => none)
    (match ti with | some t => t.rsi14 | none => none)
  let s5 : ℚ := if costBasisDelta ≠ 0 then s4 + costBasisDelta else s4
  let s6 : ℚ := s5 +
    (match costPrice with
     | some c =>
         if 0 < c then
           if 30 < pnlPct then -15
           else if 10 < pnlPct then 5
           else if pnlPct < -20 then 10
           else if pnlPct < -10 then 5
           else 0
         else 0
     | none => 0)
  let s7 : ℚ := s6 +
    (match quote with
     | some q =>
         (match q.pe with
          | some v => if v ≠ 0 ∧ v < 25 ∧ 0 < sentimentScore then 8 else 0
          | none => 0)
       + (match q.dividendYield with
          | some v => if v ≠ 0 ∧ (3/2 : ℚ) < v then 4 else 0
          | none => 0)
       + (match q.fiftyTwoWeekLow with
          | some v =>
              if v ≠ 0 ∧ currentPrice < v * (23/20 : ℚ) ∧ 0 < sentimentScore then 12
              else 0
          | none => 0)
       + (match q.changePercent with
          | some v => if v ≠ 0 ∧ 3 < |v| then (if 0 < v then 5 else -5) else 0
          | none => 0)
     | none => 0)
  let s8 : ℚ :=
    if symbol = XIAOMI_SYMBOL then
      let sx := s7 + sentimentScore * 10
      if shares ≤ 0 ∧ 0 ≤ sentimentScore then sx + 6 else sx
    else s7
  let newsVolume := sentiment.positiveHits.length + sentiment.negativeHits.length
  if 5 ≤ newsVolume then (if 0 < sentimentScore then s8 + 8 else s8 - 8) else s8

/-- The `signalStrength` scalar at thresholding time: the raw accumulation
with the max-position clamp of the source applied. -/
noncomputable def signalStrength (symbol : String) (currentPrice : ℚ)
    (costPrice : Option ℚ) (shares : ℚ) (news : String) (quote : Option Quote)
    (ti : Option TechnicalIndicators) (riskCheck : Option RiskCheckResult)
    (recentPriceHistory : List PricePoint) : ℚ :=
  let s := signalStrengthRaw symbol currentPrice costPrice shares news quote ti
    recentPriceHistory
  if maxPosOf riskCheck ∧ 0 < s then jsMin s 0 else s

/-- Embedding of `analyzeSignals`: risk override first, then the final
action logic over the accumulated signal strength.  The current date is
passed as `month` (0-11) and `day` (1-31). -/
noncomputable def analyzeSignals (symbol : String) (currentPrice : ℚ)
    (costPrice : Option ℚ) (shares : ℚ) (news : String) (quote : Option Quote)
    (ti : Option TechnicalIndicators) (riskCheck : Option RiskCheckResult)
    (recentPriceHistory : List PricePoint) (month day : ℕ) : Decision :=
  if stopLossOf riskCheck then
    { symbol := symbol, action := TradeAction.SELL, confidence := 90 }
  else
    let s := signalStrength symbol currentPrice costPrice shares news quote ti
      riskCheck recentPriceHistory
    let isQuarterEnd := (month = 2 ∨ month = 5 ∨ month = 8 ∨ month = 11) ∧ 25 ≤ day
    if symbol = "MSFT" then
      if isQuarterEnd ∧ 0 < s then
        { symbol := symbol, action := TradeAction.BUY, confidence := 80 }
      else
        { symbol := symbol
          action := if s < -25 then TradeAction.SELL else TradeAction.HOLD
          confidence := 60 }
    else
      let buyThreshold : ℚ := if symbol = XIAOMI_SYMBOL then 8 else 15
      let sellThreshold : ℚ := if symbol = XIAOMI_SYMBOL then -8 else -15
      if buyThreshold < s then
        { symbol := symbol, action := TradeAction.BUY
          confidence := jsMin 95 (55 + Int.floor s) }
      else if s < sellThreshold then
        { symbol := symbol, action := TradeAction.SELL
          confidence := jsMin 95 (55 + Int.floor |s|) }
      else
        { symbol := symbol, action := TradeAction.HOLD
          confidence := 50 + Int.floor |s| }

/- ────────────────────────────────────────────────────────────────────
   Trade sizing and execution (src/lib/ai-decision.ts, executeSimulatedTrade)
   ──────────────────────────────────────────────────────────────────── -/

/-- The trade record inserted into `st-trades` (free-text `reason` dropped). -/
structure TradeRec where
  symbol : String
  action : TradeAction
  shares : ℚ
  price : ℚ
  currency : String
deriving DecidableEq, Repr

/-- The mutable columns of the symbol's `st-holdings` row that the executor
updates: share count and cost price. -/
structure HoldingUpdate where
  shares : ℚ
  costPrice : Option ℚ
deriving DecidableEq, Repr

/-- `Math.round(x * 100) / 100` of the source (round-half-up matches
JavaScript `Math.round`). -/
def round2 (x : ℚ) : ℚ :=
  (round (x * 100) : ℤ) / 100

/-- Embedding of `executeSimulatedTrade`.  Returns `none` when no trade is
produced; otherwise the trade record together with the new state of the
holding row (the source applies it through SQL UPDATE statements:
`shares = shares + q`, weighted-average cost on BUY;
`shares = GREATEST(0, shares - q)`, cost untouched, on SELL). -/
def executeSimulatedTrade (decision : Decision) (currentPrice : ℚ)
    (currency : String) (currentShares : ℚ) (currentCostPrice : Option ℚ) :
    Option (TradeRec × HoldingUpdate) :=
  match decision.action with
  | TradeAction.HOLD => none
  | TradeAction.BUY =>
      let tradeShares : ℚ :=
        if decision.symbol = "MSFT" then
          ((Int.floor ((2900 : ℚ) / currentPrice) : ℤ) : ℚ)
        else
          ((jsMax 200 (Int.floor ((decision.confidence : ℚ) / 100 * 1000)) : ℤ) : ℚ)
      if tradeShares ≤ 0 then none
      else
        let oldCost : ℚ :=
          match currentCostPrice with
          | some c => if 0 < c then c else currentPrice
          | none => currentPrice
        let newTotalShares := currentShares + tradeShares
        let newAvgCost : ℚ :=
          if 0 < newTotalShares then
            (currentShares * oldCost + tradeShares * currentPrice) / newTotalShares
          else currentPrice
        some ({ symbol := decision.symbol, action := TradeAction.BUY
                shares := tradeShares, price := currentPrice, currency := currency },
              { shares := currentShares + tradeShares
                costPrice := some (round2 newAvgCost) })
  | TradeAction.SELL =>
      if currentShares ≤ 0 then none
      else
        let sellPct : ℚ := jsMin (1/4 : ℚ) ((decision.confidence : ℚ) / 400)
        let tradeShares : ℚ :=
          jsMin currentShares ((jsMax 1 (Int.floor (currentShares * sellPct)) : ℤ) : ℚ)
        if tradeShares ≤ 0 then none
        else
          some ({ symbol := decision.symbol, action := TradeAction.SELL
                  shares := tradeShares, price := currentPrice, currency := currency },
                { shares := jsMax 0 (currentShares - tradeShares)
                  costPrice := currentCostPrice })

/- ────────────────────────────────────────────────────────────────────
   Claim theorems
   ──────────────────────────────────────────────────────────────────── -/

/-- C1: for every context whose risk check has `stop_loss_triggered = true`,
the fallback rule path returns `action = SELL` with `confidence = 90`,
regardless of all other inputs. -/
theorem stopLoss_forces_sell (symbol : String) (currentPrice : ℚ)
    (costPrice : Option ℚ) (shares : ℚ) (news : String) (quote : Option Quote)
    (ti : Option TechnicalIndicators) (r : RiskCheckResult)
    (hist : List PricePoint) (month day : ℕ)
    (h : r.stopLossTriggered = true) :
    (analyzeSignals symbol currentPrice costPrice shares news quote ti (some r)
      hist month day).action = TradeAction.SELL ∧
    (analyzeSignals symbol currentPrice costPrice shares news quote ti (some r)
      hist month day).confidence = 90 := by
  unfold analyzeSignals
  simp [stopLossOf, h]

/-- Witness for C1 at a concrete context. -/
theorem stopLoss_forces_sell_witness :
    ({ stopLossTriggered := true, maxPositionReached := false,
       cooldownActive := false, dailyTradeCount := 0 } : RiskCheckResult).stopLossTriggered = true ∧
    ((analyzeSignals ("AAPL") 1 none 0 ("") none none
        (some { stopLossTriggered := true, maxPositionReached := false,
                cooldownActive := false, dailyTradeCount := 0 })
        [] 0 1).action = TradeAction.SELL ∧
     (analyzeSignals ("AAPL") 1 none 0 ("") none none
        (some { stopLossTriggered := true, maxPositionReached := false,
                cooldownActive := false, dailyTradeCount := 0 })
        [] 0 1).confidence = 90) :=
  ⟨rfl, stopLoss_forces_sell ("AAPL") 1 none 0 ("") none none
    { stopLossTriggered := true, maxPositionReached := false,
      cooldownActive := false, dailyTradeCount := 0 } [] 0 1 rfl⟩

/-- The 30-point, strictly decreasing, most-recent-first price series of
end-to-end scenario A: 100, 99, ..., 71. -/
def priceRows30 : List PriceRow :=
  (List.range 30).map (fun i => { price := 100 - (i : ℚ), averageVolume := 0 })

/-- C9 counterexample: on the most-recent-first series `[100, 99, ..., 71]`
the detector does NOT report `consecutive_down = 29`; a list that decreases
from the most recent point backward is an up-trend of the stock, so the
series yields `consecutive_up = 29`. -/
theorem consecutive_runs_cex :
    (computeTechnicalIndicators priceRows30 100 none none).consecutiveDown ≠ 29 := by
  apply of_decide_eq_true
  with_unfolding_all rfl

/-- C9 amended: for the most-recent-first series `[100, 99, ..., 71]` the
consecutive-run detector reports `consecutive_up = 29` and
`consecutive_down = 0`. -/
theorem consecutive_runs_uptrend :
    (computeTechnicalIndicators priceRows30 100 none none).consecutiveUp = 29 ∧
    (computeTechnicalIndicators priceRows30 100 none none).consecutiveDown = 0 := by
  constructor <;> (apply of_decide_eq_true; with_unfolding_all rfl)

/-- C3 counterexample: a BUY of 500 shares at price 2 into a position of 1
share at cost 1 stores cost price 2 (the rounded value), not the exact
share-weighted average 1001/501. -/
theorem buy_cost_rounding_cex :
    executeSimulatedTrade
        { symbol := "AAPL", action := TradeAction.BUY, confidence := 50 }
        2 ("USD") 1 (some 1)
      = some ({ symbol := "AAPL", action := TradeAction.BUY, shares := 500,
                price := 2, currency := "USD" },
              { shares := 501, costPrice := some 2 }) ∧
    (2 : ℚ) ≠ (1 * 1 + 500 * 2) / (1 + 500) := by
  constructor
  · apply of_decide_eq_true; with_unfolding_all rfl
  · apply of_decide_eq_true; with_unfolding_all rfl

/-- C3 amended: for every BUY execution of `q > 0` shares at price `p` into
an existing position of `s ≥ 0` shares at positive cost `c`, the stored
cost price equals the share-weighted average `(s*c + q*p)/(s+q)` rounded to
2 decimal places. -/
theorem buy_weighted_avg_cost_rounded (d : Decision) (currentPrice : ℚ)
    (currency : String) (s c : ℚ) (tr : TradeRec) (upd : HoldingUpdate)
    (ha : d.action = TradeAction.BUY) (hc : 0 < c) (hs : 0 ≤ s)
    (h : executeSimulatedTrade d currentPrice currency s (some c) = some (tr, upd)) :
    upd.costPrice =
      some (round2 ((s * c + tr.shares * currentPrice) / (s + tr.shares))) := by
  unfold executeSimulatedTrade at h
  rw [ha] at h
  simp only [] at h
  rw [if_pos hc] at h
  split at h
  all_goals split at h
  any_goals exact Option.noConfusion h
  all_goals (
    rename_i hq
    push_neg at hq
    rw [Option.some_inj] at h
    obtain ⟨h1, h2⟩ := Prod.ext_iff.mp h
    subst h2
    rw [show tr = _ from h1.symm]
    simp only []
    rw [if_pos (by linarith)])

/-- Concrete BUY decision used by the executor witnesses. -/
def buyDecW : Decision :=
  { symbol := "AAPL", action := TradeAction.BUY, confidence := 50 }

/-- The trade produced by `buyDecW` at price 2. -/
def buyTradeW : TradeRec :=
  { symbol := "AAPL", action := TradeAction.BUY, shares := 500, price := 2, currency := "USD" }

/-- Witness for the amended C3 at the counterexample's input. -/
theorem buy_weighted_avg_cost_rounded_witness :
    ({ shares := 501, costPrice := some 2 } : HoldingUpdate).costPrice =
      some (round2 ((1 * 1 + buyTradeW.shares * 2) / (1 + buyTradeW.shares))) :=
  buy_weighted_avg_cost_rounded buyDecW 2 ("USD") 1 1 buyTradeW
    { shares := 501, costPrice := some 2 }
    rfl (by norm_num) (by norm_num)
    (by apply of_decide_eq_true; with_unfolding_all rfl)

/-- Shares-weighted average of a single price is that price. -/
theorem avg_same (s q p : ℚ) (h : 0 < s + q) :
    (s * p + q * p) / (s + q) = p := by
  rw [div_eq_iff (ne_of_gt h)]
  ring

/-- C10: a BUY into a position whose stored cost is `null` or nonpositive
substitutes the trade price for the old cost, so the stored cost equals the
trade price rounded to 2 decimals, regardless of the existing share count. -/
theorem buy_cost_reset_to_price (d : Decision) (currentPrice : ℚ)
    (currency : String) (s : ℚ) (cOpt : Option ℚ) (tr : TradeRec) (upd : HoldingUpdate)
    (ha : d.action = TradeAction.BUY)
    (hc : cOpt = none ∨ ∃ c, cOpt = some c ∧ c ≤ 0)
    (hs : 0 ≤ s)
    (h : executeSimulatedTrade d currentPrice currency s cOpt = some (tr, upd)) :
    upd.costPrice = some (round2 currentPrice) := by
  unfold executeSimulatedTrade at h
  rw [ha] at h
  rcases hc with hnone | ⟨c, hsome, hle⟩
  · subst hnone
    simp only [] at h
    split at h
    all_goals split at h
    any_goals exact Option.noConfusion h
    all_goals (
      rename_i hq
      push_neg at hq
      rw [Option.some_inj] at h
      obtain ⟨h1, h2⟩ := Prod.ext_iff.mp h
      subst h2
      simp only []
      rw [if_pos (by linarith), avg_same _ _ _ (by linarith)])
  · subst hsome
    simp only [] at h
    rw [if_neg (not_lt.mpr hle)] at h
    split at h
    all_goals split at h
    any_goals exact Option.noConfusion h
    all_goals (
      rename_i hq
      push_neg at hq
      rw [Option.some_inj] at h
      obtain ⟨h1, h2⟩ := Prod.ext_iff.mp h
      subst h2
      simp only []
      rw [if_pos (by linarith), avg_same _ _ _ (by linarith)])

/-- The trade produced by `buyDecW` at price 2 into an empty holding. -/
def buyUpdW : HoldingUpdate := { shares := 500, costPrice := some 2 }

/-- Witness for C10: a BUY into a brand-new holding (no stored cost). -/
theorem buy_cost_reset_to_price_witness :
    buyUpdW.costPrice = some (round2 2) :=
  buy_cost_reset_to_price buyDecW 2 ("USD") 0 none buyTradeW buyUpdW
    rfl (Or.inl rfl) le_rfl
    (by apply of_decide_eq_true; with_unfolding_all rfl)

/-- C4: for every SELL decision the executed quantity is
`min(shares, max(1, floor(shares * min(0.25, confidence/400))))`, no trade
is produced when the position is empty, and the updated share count never
drops below zero. -/
theorem sell_sizing_and_floor (d : Decision) (currentPrice : ℚ)
    (currency : String) (s : ℚ) (cOpt : Option ℚ) (tr : TradeRec) (upd : HoldingUpdate)
    (ha : d.action = TradeAction.SELL) :
    (s ≤ 0 → executeSimulatedTrade d currentPrice currency s cOpt = none) ∧
    (executeSimulatedTrade d currentPrice currency s cOpt = some (tr, upd) →
      tr.shares =
        min s ((max 1 (Int.floor (s * min (1/4 : ℚ) ((d.confidence : ℚ) / 400))) : ℤ) : ℚ) ∧
      0 ≤ upd.shares) := by
  unfold executeSimulatedTrade
  rw [ha]
  simp only []
  constructor
  · intro hs
    rw [if_pos hs]
  · intro h
    split at h
    · exact Option.noConfusion h
    · split at h
      · exact Option.noConfusion h
      · rw [Option.some_inj] at h
        obtain ⟨h1, h2⟩ := Prod.ext_iff.mp h
        constructor
        · rw [show tr = _ from h1.symm]
          simp only [jsMin_eq_min, jsMax_eq_max]
        · rw [show upd = _ from h2.symm]
          simp only [jsMax_eq_max]
          exact le_max_left _ _

/-- Concrete SELL decision used by the C4 witness. -/
def sellDecW : Decision :=
  { symbol := "AAPL", action := TradeAction.SELL, confidence := 80 }

/-- The trade produced by `sellDecW` at price 10 out of 100 shares. -/
def sellTradeW : TradeRec :=
  { symbol := "AAPL", action := TradeAction.SELL, shares := 20, price := 10, currency := "USD" }

/-- The holding state after `sellTradeW`. -/
def sellUpdW : HoldingUpdate := { shares := 80, costPrice := some 5 }

/-- Witness for C4: selling with confidence 80 out of 100 shares executes
20 shares and leaves 80 (a nonnegative count). -/
theorem sell_sizing_and_floor_witness :
    sellTradeW.shares =
      min (100 : ℚ)
        ((max 1 (Int.floor ((100 : ℚ) * min (1/4 : ℚ) ((sellDecW.confidence : ℚ) / 400))) : ℤ) : ℚ) ∧
    (0 : ℚ) ≤ sellUpdW.shares :=
  (sell_sizing_and_floor sellDecW 10 ("USD") 100 (some 5) sellTradeW sellUpdW rfl).2
    (by apply of_decide_eq_true; with_unfolding_all rfl)

/-- C2: with fewer than 5 usable (positive) price points, the indicator
calculator returns a vector whose every indicator field is null except the
52-week-distance fields (computed directly from the current price versus
the supplied high/low when those are positive), with composite score 0,
signal neutral, and consecutive-run counts 0. -/
theorem insufficient_data_empty_vector (rows : List PriceRow) (currentPrice : ℚ)
    (h52 l52 : Option ℚ) (r : TechnicalIndicators)
    (hlt : (usablePrices rows).length < 5)
    (hr : computeTechnicalIndicators rows currentPrice h52 l52 = r) :
    r.sma5 = none ∧ r.sma20 = none ∧ r.sma60 = none ∧ r.ema12 = none ∧ r.ema26 = none ∧
    r.maShortAboveLong = none ∧ r.maGoldenCross = none ∧
    r.priceAboveSma20 = none ∧ r.priceAboveSma60 = none ∧
    r.rsi14 = none ∧ r.rsiSignal = none ∧
    r.macdLine = none ∧ r.macdSignal = none ∧ r.macdHistogram = none ∧ r.macdBullish = none ∧
    r.bollingerUpper = none ∧ r.bollingerMiddle = none ∧
    r.bollingerLower = none ∧ r.bollingerPosition = none ∧
    r.atr14 = none ∧ r.volatilityPct = none ∧ r.dailyReturnStdDev = none ∧
    r.volumeQuot = none ∧ r.volumeTrend = none ∧
    r.roc5 = none ∧ r.roc20 = none ∧
    r.suddenVolumeSpike = none ∧
    r.technicalScore = 0 ∧ r.technicalSignal = TechnicalSignal.neutral ∧
    r.consecutiveUp = 0 ∧ r.consecutiveDown = 0 ∧
    r.dataPoints = (usablePrices rows).length ∧
    r.distanceFrom52wHigh =
      (h52.elim none fun b => if 0 < b then some ((currentPrice - b) / b * 100) else none) ∧
    r.distanceFrom52wLow =
      (l52.elim none fun b => if 0 < b then some ((currentPrice - b) / b * 100) else none) := by
  have he : computeTechnicalIndicators rows currentPrice h52 l52 =
      emptyIndicators currentPrice (usablePrices rows).length h52 l52 := by
    unfold computeTechnicalIndicators
    simp only []
    rw [if_pos hlt]
  subst hr
  rw [he]
  unfold emptyIndicators
  refine ⟨rfl, rfl, rfl, rfl, rfl, rfl, rfl, rfl, rfl, rfl, rfl, rfl, rfl, rfl, rfl,
    rfl, rfl, rfl, rfl, rfl, rfl, rfl, rfl, rfl, rfl, rfl, rfl, rfl, rfl, rfl, rfl,
    rfl, ?_, ?_⟩
  · cases h52 <;> simp [dist52, Option.elim]
  · cases l52 <;> simp [dist52, Option.elim]

/-- Rows with only two usable price points, for the C2 witness. -/
def rowsW : List PriceRow :=
  [{ price := 3, averageVolume := 0 }, { price := 2, averageVolume := 0 },
   { price := 0, averageVolume := 0 }]

/-- Witness for C2 at a concrete three-row history with two usable points. -/
theorem insufficient_data_empty_vector_witness :
    (emptyIndicators 10 2 (some 20) (some 5)).sma5 = none ∧
    (emptyIndicators 10 2 (some 20) (some 5)).sma20 = none ∧
    (emptyIndicators 10 2 (some 20) (some 5)).sma60 = none ∧
    (emptyIndicators 10 2 (some 20) (some 5)).ema12 = none ∧
    (emptyIndicators 10 2 (some 20) (some 5)).ema26 = none ∧
    (emptyIndicators 10 2 (some 20) (some 5)).maShortAboveLong = none ∧
    (emptyIndicators 10 2 (some 20) (some 5)).maGoldenCross = none ∧
    (emptyIndicators 10 2 (some 20) (some 5)).priceAboveSma20 = none ∧
    (emptyIndicators 10 2 (some 20) (some 5)).priceAboveSma60 = none ∧
    (emptyIndicators 10 2 (some 20) (some 5)).rsi14 = none ∧
    (emptyIndicators 10 2 (some 20) (some 5)).rsiSignal = none ∧
    (emptyIndicators 10 2 (some 20) (some 5)).macdLine = none ∧
    (emptyIndicators 10 2 (some 20) (some 5)).macdSignal = none ∧
    (emptyIndicators 10 2 (some 20) (some 5)).macdHistogram = none ∧
    (emptyIndicators 10 2 (some 20) (some 5)).macdBullish = none ∧
    (emptyIndicators 10 2 (some 20) (some 5)).bollingerUpper = none ∧
    (emptyIndicators 10 2 (some 20) (some 5)).bollingerMiddle = none ∧
    (emptyIndicators 10 2 (some 20) (some 5)).bollingerLower = none ∧
    (emptyIndicators 10 2 (some 20) (some 5)).bollingerPosition = none ∧
    (emptyIndicators 10 2 (some 20) (some 5)).atr14 = none ∧
    (emptyIndicators 10 2 (some 20) (some 5)).volatilityPct = none ∧
    (emptyIndicators 10 2 (some 20) (some 5)).dailyReturnStdDev = none ∧
    (emptyIndicators 10 2 (some 20) (some 5)).volumeQuot = none ∧
    (emptyIndicators 10 2 (some 20) (some 5)).volumeTrend = none ∧
    (emptyIndicators 10 2 (some 20) (some 5)).roc5 = none ∧
    (emptyIndicators 10 2 (some 20) (some 5)).roc20 = none ∧
    (emptyIndicators 10 2 (some 20) (some 5)).suddenVolumeSpike = none ∧
    (emptyIndicators 10 2 (some 20) (some 5)).technicalScore = 0 ∧
    (emptyIndicators 10 2 (some 20) (some 5)).technicalSignal = TechnicalSignal.neutral ∧
    (emptyIndicators 10 2 (some 20) (some 5)).consecutiveUp = 0 ∧
    (emptyIndicators 10 2 (some 20) (some 5)).consecutiveDown = 0 ∧
    (emptyIndicators 10 2 (some 20) (some 5)).dataPoints = (usablePrices rowsW).length ∧
    (emptyIndicators 10 2 (some 20) (some 5)).distanceFrom52wHigh =
      ((some 20 : Option ℚ).elim none fun b => if 0 < b then some (((10 : ℚ) - b) / b * 100) else none) ∧
    (emptyIndicators 10 2 (some 20) (some 5)).distanceFrom52wLow =
      ((some 5 : Option ℚ).elim none fun b => if 0 < b then some (((10 : ℚ) - b) / b * 100) else none) :=
  insufficient_data_empty_vector rowsW 10 (some 20) (some 5)
    (emptyIndicators 10 2 (some 20) (some 5))
    (by apply of_decide_eq_true; with_unfolding_all rfl)
    (by with_unfolding_all rfl)

/-- C8: with `max_position_reached = true` and `stop_loss_triggered = false`,
the fallback path clamps the signal strength to at most 0 before the final
thresholding, and consequently never returns BUY for any symbol (the MSFT
quarter-end special case requires a positive signal strength). -/
theorem max_position_blocks_buy (symbol : String) (currentPrice : ℚ)
    (costPrice : Option ℚ) (shares : ℚ) (news : String) (quote : Option Quote)
    (ti : Option TechnicalIndicators) (r : RiskCheckResult)
    (hist : List PricePoint) (month day : ℕ)
    (hmax : r.maxPositionReached = true) (hsl : r.stopLossTriggered = false) :
    signalStrength symbol currentPrice costPrice shares news quote ti (some r) hist ≤ 0 ∧
    (analyzeSignals symbol currentPrice costPrice shares news quote ti (some r)
      hist month day).action ≠ TradeAction.BUY := by
  have hs0 : signalStrength symbol currentPrice costPrice shares news quote ti (some r) hist ≤ 0 := by
    unfold signalStrength
    simp only [maxPosOf, hmax, true_and]
    split
    · rw [jsMin_eq_min]
      exact min_le_right _ _
    · rename_i hcond
      exact le_of_not_lt hcond
  refine ⟨hs0, ?_⟩
  unfold analyzeSignals
  rw [if_neg (by simp [stopLossOf, hsl])]
  simp only []
  split
  · split
    · rename_i hq
      exact absurd hq.2 (not_lt.mpr hs0)
    · simp only []
      split <;> simp
  · have hth : ¬((if symbol = XIAOMI_SYMBOL then (8:ℚ) else 15) <
        signalStrength symbol currentPrice costPrice shares news quote ti (some r) hist) := by
      have hpos : (0:ℚ) < (if symbol = XIAOMI_SYMBOL then (8:ℚ) else 15) := by
        split <;> norm_num
      exact not_lt.mpr (hs0.trans hpos.le)
    rw [if_neg hth]
    split <;> split <;> simp

/-- The risk flags used by the C8 witness: position cap hit, no stop-loss. -/
def riskMaxW : RiskCheckResult :=
  { stopLossTriggered := false, maxPositionReached := true,
    cooldownActive := false, dailyTradeCount := 0 }

/-- Witness for C8 at a concrete context. -/
theorem max_position_blocks_buy_witness :
    signalStrength ("AAPL") 1 none 0 ("") none none (some riskMaxW) [] ≤ 0 ∧
    (analyzeSignals ("AAPL") 1 none 0 ("") none none (some riskMaxW) [] 0 1).action ≠
      TradeAction.BUY :=
  max_position_blocks_buy ("AAPL") 1 none 0 ("") none none riskMaxW [] 0 1 rfl rfl

/-- C7 counterexample: a neutral context is a fallback-rule invocation whose
returned decision is HOLD with confidence 50, while
`min(95, 55 + floor(|signal_strength|))` is 55. -/
theorem fallback_confidence_cex :
    (analyzeSignals ("AAPL") 1 none 0 ("") none none none [] 0 1).confidence ≠
      min 95 (55 + Int.floor |signalStrength ("AAPL") 1 none 0 ("") none none none []|) := by
  have h1 : (analyzeSignals ("AAPL") 1 none 0 ("") none none none [] 0 1).confidence = 50 := by
    apply of_decide_eq_true; with_unfolding_all rfl
  have h2 : signalStrength ("AAPL") 1 none 0 ("") none none none [] = 0 := by
    apply of_decide_eq_true; with_unfolding_all rfl
  rw [h1, h2]
  norm_num

/-- C7 amended: for every fallback invocation in which the stop-loss
override does not fire, the symbol is not MSFT, and the returned action is
not HOLD, the final confidence equals
`min(95, 55 + floor(|signal_strength|))` with `signal_strength` the
accumulated multi-factor scalar at thresholding time. -/
theorem fallback_confidence_formula (symbol : String) (currentPrice : ℚ)
    (costPrice : Option ℚ) (shares : ℚ) (news : String) (quote : Option Quote)
    (ti : Option TechnicalIndicators) (riskCheck : Option RiskCheckResult)
    (hist : List PricePoint) (month day : ℕ)
    (hm : symbol ≠ "MSFT")
    (hsl : stopLossOf riskCheck = false)
    (ha : (analyzeSignals symbol currentPrice costPrice shares news quote ti riskCheck
        hist month day).action ≠ TradeAction.HOLD) :
    (analyzeSignals symbol currentPrice costPrice shares news quote ti riskCheck
        hist month day).confidence =
      min 95 (55 + Int.floor
        |signalStrength symbol currentPrice costPrice shares news quote ti riskCheck hist|) := by
  unfold analyzeSignals at ha ⊢
  rw [if_neg (by simp [hsl])] at ha ⊢
  simp only [] at ha ⊢
  rw [if_neg hm] at ha ⊢
  have hpos : (0:ℚ) < (if symbol = XIAOMI_SYMBOL then (8:ℚ) else 15) := by
    split <;> norm_num
  by_cases hb : (if symbol = XIAOMI_SYMBOL then (8:ℚ) else 15) <
      signalStrength symbol currentPrice costPrice shares news quote ti riskCheck hist
  · rw [if_pos hb]
    simp only []
    rw [jsMin_eq_min, abs_of_pos (lt_trans hpos hb)]
  · rw [if_neg hb] at ha ⊢
    by_cases hsell : signalStrength symbol currentPrice costPrice shares news quote ti
        riskCheck hist < (if symbol = XIAOMI_SYMBOL then (-8 : ℚ) else -15)
    · rw [if_pos hsell]
      simp only []
      rw [jsMin_eq_min]
    · rw [if_neg hsell] at ha
      simp at ha

/-- Witness for the amended C7: a strongly negative news digest produces a
SELL whose confidence follows the formula. -/
theorem fallback_confidence_formula_witness :
    (analyzeSignals ("AAPL") 1 none 0 ("downgrade") none none none [] 0 1).confidence =
      min 95 (55 + Int.floor
        |signalStrength ("AAPL") 1 none 0 ("downgrade") none none none []|) :=
  fallback_confidence_formula ("AAPL") 1 none 0 ("downgrade") none none none [] 0 1
    (by apply of_decide_eq_true; with_unfolding_all rfl)
    rfl
    (by apply of_decide_eq_true; with_unfolding_all rfl)

/-- The positive running total of the sentiment scorer: keyword total plus
the negation bonus (the source adds the bonus to the positive score). -/
def positiveTotal (news : String) : ℚ :=
  (keywordScan POSITIVE_KEYWORDS (lowerOf news)).1 + negationBonus (lowerOf news)

/-- The negative running total of the sentiment scorer. -/
def negativeTotal (news : String) : ℚ :=
  (keywordScan NEGATIVE_KEYWORDS (lowerOf news)).1

/-- The score of `computeSentimentScore`, expressed through the two totals. -/
theorem computeSentimentScore_score (news : String) :
    (computeSentimentScore news).score =
      jsMax (-1) (jsMin 1 (if 0 < positiveTotal news + negativeTotal news then
        (positiveTotal news - negativeTotal news) /
          (positiveTotal news + negativeTotal news) else 0)) := rfl

/-- One keyword step keeps the running total nonnegative when the weight is. -/
theorem keywordStep_fst_nonneg (lower : List Char) (acc : ℚ × List String)
    (kw : String × ℚ) (hw : 0 ≤ kw.2) (ha : 0 ≤ acc.1) :
    0 ≤ (keywordStep lower acc kw).1 := by
  unfold keywordStep
  simp only []
  split
  · have h2 : (0:ℚ) ≤ kw.2 * ((jsMin (countOccur kw.1.toList lower) 3 : ℕ) : ℚ) :=
      mul_nonneg hw (by positivity)
    simp only []
    linarith
  · exact ha

/-- The keyword loop keeps the running total nonnegative. -/
theorem foldl_keywordStep_nonneg (lower : List Char) (table : List (String × ℚ)) :
    ∀ acc : ℚ × List String, (∀ kw ∈ table, 0 ≤ kw.2) → 0 ≤ acc.1 →
      0 ≤ (table.foldl (keywordStep lower) acc).1 := by
  induction table with
  | nil => intro acc _ ha; exact ha
  | cons kw rest ih =>
      intro acc hw ha
      rw [List.foldl_cons]
      exact ih _ (fun k hk => hw k (List.mem_cons_of_mem _ hk))
        (keywordStep_fst_nonneg _ _ _ (hw kw (List.mem_cons_self _ _)) ha)

/-- A keyword table with nonnegative weights yields a nonnegative total. -/
theorem keywordScan_fst_nonneg (table : List (String × ℚ)) (lower : List Char)
    (hw : ∀ kw ∈ table, 0 ≤ kw.2) : 0 ≤ (keywordScan table lower).1 :=
  foldl_keywordStep_nonneg lower table (0, []) hw le_rfl

/-- The negation loop keeps its accumulator nonnegative. -/
theorem foldl_negStep_nonneg (lower : List Char) (ps : List (List Char → Bool)) :
    ∀ acc : ℚ, 0 ≤ acc → 0 ≤ ps.foldl (negStep lower) acc := by
  induction ps with
  | nil => intro acc ha; exact ha
  | cons p rest ih =>
      intro acc ha
      rw [List.foldl_cons]
      refine ih _ ?_
      unfold negStep
      split
      · linarith
      · exact ha

/-- The negation bonus is nonnegative. -/
theorem negationBonus_nonneg (lower : List Char) : 0 ≤ negationBonus lower :=
  foldl_negStep_nonneg lower NEGATION_PATTERNS 0 le_rfl

/-- The keyword loop only appends to the hit list. -/
theorem foldl_keywordStep_snd_grows (lower : List Char) (table : List (String × ℚ)) :
    ∀ acc : ℚ × List String,
      ∃ t, (table.foldl (keywordStep lower) acc).2 = acc.2 ++ t := by
  induction table with
  | nil => intro acc; exact ⟨[], (List.append_nil _).symm⟩
  | cons kw rest ih =>
      intro acc
      rw [List.foldl_cons]
      by_cases hocc : 0 < countOccur kw.1.toList lower
      · have hstep : keywordStep lower acc kw =
            (acc.1 + kw.2 * ((jsMin (countOccur kw.1.toList lower) 3 : ℕ) : ℚ),
             acc.2 ++ [kw.1]) := by
          unfold keywordStep
          simp only []
          rw [if_pos hocc]
        obtain ⟨t, ht⟩ := ih (keywordStep lower acc kw)
        refine ⟨[kw.1] ++ t, ?_⟩
        rw [ht, hstep, List.append_assoc]
      · have hstep : keywordStep lower acc kw = acc := by
          unfold keywordStep
          simp only []
          rw [if_neg hocc]
        rw [hstep]
        exact ih acc

/-- If the keyword loop appended nothing, the total is unchanged. -/
theorem foldl_keywordStep_empty_hits (lower : List Char) (table : List (String × ℚ)) :
    ∀ acc : ℚ × List String, (table.foldl (keywordStep lower) acc).2 = acc.2 →
      (table.foldl (keywordStep lower) acc).1 = acc.1 := by
  induction table with
  | nil => intro acc _; rfl
  | cons kw rest ih =>
      intro acc hsnd
      rw [List.foldl_cons] at hsnd ⊢
      by_cases hocc : 0 < countOccur kw.1.toList lower
      · exfalso
        have hstep : keywordStep lower acc kw =
            (acc.1 + kw.2 * ((jsMin (countOccur kw.1.toList lower) 3 : ℕ) : ℚ),
             acc.2 ++ [kw.1]) := by
          unfold keywordStep
          simp only []
          rw [if_pos hocc]
        obtain ⟨t, ht⟩ := foldl_keywordStep_snd_grows lower rest (keywordStep lower acc kw)
        rw [ht, hstep] at hsnd
        have hlen := congrArg List.length hsnd
        simp only [List.append_assoc, List.length_append, List.length_cons,
          List.length_nil] at hlen
        omega
      · have hstep : keywordStep lower acc kw = acc := by
          unfold keywordStep
          simp only []
          rw [if_neg hocc]
        rw [hstep] at hsnd ⊢
        exact ih acc hsnd

/-- A scan with an empty hit list has total 0. -/
theorem keywordScan_empty_hits (table : List (String × ℚ)) (lower : List Char)
    (h : (keywordScan table lower).2 = []) : (keywordScan table lower).1 = 0 :=
  foldl_keywordStep_empty_hits lower table (0, []) h

/-- C6 counterexample: the text "not declining" hits no keyword in either
table (both hit lists are empty), yet the negation pattern
`not\s+(?:a\s+)?declin` fires, making the score 1 rather than 0. -/
theorem sentiment_zero_hits_cex :
    (computeSentimentScore ("not declining")).positiveHits = [] ∧
    (computeSentimentScore ("not declining")).negativeHits = [] ∧
    (computeSentimentScore ("not declining")).score ≠ 0 := by
  refine ⟨?_, ?_, ?_⟩ <;> (apply of_decide_eq_true; with_unfolding_all rfl)

/-- C6 amended: the sentiment score always lies in [-1, 1]; it equals
`(positive_total - negative_total) / (positive_total + negative_total)`
whenever the totals (negation bonus included) are nonzero; and a text with
zero keyword hits and no negation-pattern match scores 0. -/
theorem sentiment_score_props (news : String) :
    (-1 ≤ (computeSentimentScore news).score ∧ (computeSentimentScore news).score ≤ 1) ∧
    (0 < positiveTotal news + negativeTotal news →
      (computeSentimentScore news).score =
        (positiveTotal news - negativeTotal news) /
          (positiveTotal news + negativeTotal news)) ∧
    ((computeSentimentScore news).positiveHits = [] ∧
     (computeSentimentScore news).negativeHits = [] ∧
     negationBonus (lowerOf news) = 0 →
      (computeSentimentScore news).score = 0) := by
  have hposw : ∀ kw ∈ POSITIVE_KEYWORDS, (0:ℚ) ≤ kw.2 := by
    apply of_decide_eq_true; with_unfolding_all rfl
  have hnegw : ∀ kw ∈ NEGATIVE_KEYWORDS, (0:ℚ) ≤ kw.2 := by
    apply of_decide_eq_true; with_unfolding_all rfl
  have hp : 0 ≤ positiveTotal news :=
    add_nonneg (keywordScan_fst_nonneg _ _ hposw) (negationBonus_nonneg _)
  have hn : 0 ≤ negativeTotal news :=
    keywordScan_fst_nonneg _ _ hnegw
  refine ⟨?_, ?_, ?_⟩
  · rw [computeSentimentScore_score, jsMax_eq_max, jsMin_eq_min]
    exact ⟨le_max_left _ _, max_le (by norm_num) (min_le_left _ _)⟩
  · intro ht
    rw [computeSentimentScore_score, jsMax_eq_max, jsMin_eq_min, if_pos ht]
    have hle1 : (positiveTotal news - negativeTotal news) /
        (positiveTotal news + negativeTotal news) ≤ 1 := by
      rw [div_le_one ht]
      linarith
    have hge : -1 ≤ (positiveTotal news - negativeTotal news) /
        (positiveTotal news + negativeTotal news) := by
      rw [le_div_iff₀ ht]
      linarith
    rw [min_eq_right hle1, max_eq_right hge]
  · rintro ⟨hph, hnh, hb⟩
    have h1 : positiveTotal news = 0 := by
      unfold positiveTotal
      rw [keywordScan_empty_hits _ _ hph, hb]
      norm_num
    have h2 : negativeTotal news = 0 := by
      unfold negativeTotal
      exact keywordScan_empty_hits _ _ hnh
    rw [computeSentimentScore_score, h1, h2]
    norm_num [jsMax, jsMin]

/-- Witness for the amended C6 at the text "downgrade". -/
theorem sentiment_score_props_witness :
    ((-1 ≤ (computeSentimentScore ("downgrade")).score ∧
      (computeSentimentScore ("downgrade")).score ≤ 1)) ∧
    ((computeSentimentScore ("downgrade")).score =
      (positiveTotal ("downgrade") - negativeTotal ("downgrade")) /
        (positiveTotal ("downgrade") + negativeTotal ("downgrade"))) :=
  ⟨(sentiment_score_props ("downgrade")).1,
   (sentiment_score_props ("downgrade")).2.1
     (by apply of_decide_eq_true; with_unfolding_all rfl)⟩

/-- The initial-average loop keeps both accumulators nonnegative. -/
theorem foldl_rsiInitStep_nonneg (l : List ℚ) :
    ∀ acc : ℚ × ℚ, 0 ≤ acc.1 → 0 ≤ acc.2 →
      0 ≤ (l.foldl rsiInitStep acc).1 ∧ 0 ≤ (l.foldl rsiInitStep acc).2 := by
  induction l with
  | nil => intro acc h1 h2; exact ⟨h1, h2⟩
  | cons c rest ih =>
      intro acc h1 h2
      rw [List.foldl_cons]
      unfold rsiInitStep
      split
      · exact ih _ (by simp only []; linarith) (by simp only []; linarith)
      · refine ih _ (by simp only []; linarith) ?_
        simp only []
        have := abs_nonneg c
        linarith

/-- The Wilder smoothing loop keeps both averages nonnegative. -/
theorem foldl_rsiSmoothStep_nonneg (period : ℕ) (hp : 1 ≤ period) (l : List ℚ) :
    ∀ acc : ℚ × ℚ, 0 ≤ acc.1 → 0 ≤ acc.2 →
      0 ≤ (l.foldl (rsiSmoothStep period) acc).1 ∧
      0 ≤ (l.foldl (rsiSmoothStep period) acc).2 := by
  have hp1 : (0:ℚ) ≤ (period : ℚ) - 1 := by
    have h1 : (1:ℚ) ≤ (period : ℚ) := by exact_mod_cast hp
    linarith
  have hpq : (0:ℚ) ≤ (period : ℚ) := by positivity
  induction l with
  | nil => intro acc h1 h2; exact ⟨h1, h2⟩
  | cons c rest ih =>
      intro acc h1 h2
      rw [List.foldl_cons]
      unfold rsiSmoothStep
      refine ih _ ?_ ?_
      · simp only []
        apply div_nonneg _ hpq
        have hx : (0:ℚ) ≤ (if 0 < c then c else 0) := by split <;> linarith
        have hm := mul_nonneg h1 hp1
        linarith
      · simp only []
        apply div_nonneg _ hpq
        have hx : (0:ℚ) ≤ (if c < 0 then |c| else 0) := by
          split
          · exact abs_nonneg c
          · linarith
        have hm := mul_nonneg h2 hp1
        linarith

set_option maxHeartbeats 1000000 in
/-- The smoothed RSI averages are always nonnegative. -/
theorem rsiAverages_nonneg (prices : List ℚ) (g l : ℚ)
    (h : rsiAverages prices 14 = some (g, l)) : 0 ≤ g ∧ 0 ≤ l := by
  unfold rsiAverages at h
  split at h
  · exact Option.noConfusion h
  · simp only [] at h
    split at h
    · exact Option.noConfusion h
    · rw [Option.some_inj] at h
      obtain ⟨hg, hl⟩ := Prod.ext_iff.mp h
      simp only [] at hg hl
      refine ⟨?_, ?_⟩
      · rw [← hg]
        exact (foldl_rsiSmoothStep_nonneg 14 (by norm_num) _ _
          (div_nonneg (foldl_rsiInitStep_nonneg _ _ le_rfl le_rfl).1 (by norm_num))
          (div_nonneg (foldl_rsiInitStep_nonneg _ _ le_rfl le_rfl).2 (by norm_num))).1
      · rw [← hl]
        exact (foldl_rsiSmoothStep_nonneg 14 (by norm_num) _ _
          (div_nonneg (foldl_rsiInitStep_nonneg _ _ le_rfl le_rfl).1 (by norm_num))
          (div_nonneg (foldl_rsiInitStep_nonneg _ _ le_rfl le_rfl).2 (by norm_num))).2

/-- C5: whenever RSI(14) is defined it lies in [0, 100], and it equals
exactly 100 when the trailing (smoothed) average loss is 0. -/
theorem rsi_bounds_and_zero_loss (prices : List ℚ) (r g l : ℚ)
    (hr : computeRSI prices 14 = some r)
    (hgl : rsiAverages prices 14 = some (g, l)) :
    (0 ≤ r ∧ r ≤ 100) ∧ (l = 0 → r = 100) := by
  obtain ⟨hg0, hl0⟩ := rsiAverages_nonneg prices g l hgl
  unfold computeRSI at hr
  rw [hgl] at hr
  simp only [] at hr
  by_cases hl : l = 0
  · rw [if_pos hl] at hr
    rw [Option.some_inj] at hr
    constructor
    · constructor <;> (rw [← hr]; try norm_num)
    · intro _; rw [← hr]
  · rw [if_neg hl] at hr
    rw [Option.some_inj] at hr
    have hlpos : 0 < l := lt_of_le_of_ne hl0 (Ne.symm hl)
    have hrs : (0:ℚ) ≤ g / l := div_nonneg hg0 hl0
    have hd1 : (0:ℚ) < 1 + g / l := by linarith
    have hdle : 100 / (1 + g / l) ≤ 100 := div_le_self (by norm_num) (by linarith)
    have hdnn : (0:ℚ) ≤ 100 / (1 + g / l) := div_nonneg (by norm_num) (le_of_lt hd1)
    constructor
    · constructor <;> (rw [← hr]; try linarith)
    · intro hcontra
      exact absurd hcontra hl

/-- A 16-point most-recent-first series rising over time: 100, 99, ..., 85.
Every change is a gain, so the smoothed average loss is exactly 0. -/
def rsiPricesW : List ℚ := (List.range 16).map (fun i => 100 - (i : ℚ))

/-- Witness for C5: on `rsiPricesW`, RSI(14) is defined, the averages are
`(1, 0)` and the theorem yields the bounds and the exact value 100. -/
theorem rsi_bounds_and_zero_loss_witness :
    ((0:ℚ) ≤ 100 ∧ (100:ℚ) ≤ 100) ∧ ((0:ℚ) = 0 → (100:ℚ) = 100) :=
  rsi_bounds_and_zero_loss rsiPricesW 100 1 0
    (by apply of_decide_eq_true; with_unfolding_all rfl)
    (by apply of_decide_eq_true; with_unfolding_all rfl)
